import Mathlib

/-!
Shallow embedding of the conversational query engine of the movie-chatbot
repository: the `chat` / `generate_cypher` / `understand_question` /
`search_database` operations of `scripts/chatbot.py` (class MovieChatbot),
the corresponding operations of `scripts/gemini_chatbot.py`
(class GeminiMovieChatbot), and the `/chat` endpoint of `app.py`.

External collaborators (the language-model client, the Neo4j driver and
Python's `json.loads`) are modelled as oracle parameters; everything the
repository's own code does (history mutation, fence stripping, dispatch,
result formatting, error flow) is translated line by line into executable
Lean definitions.  Python string primitives used by the code
(`str.strip`, `str.startswith`, `str.splitlines`, `sep.join`) are given
structural-recursion models over the character list of a `String` so that
every definition evaluates by kernel reduction.
-/

/-- A JSON value as produced by Python's `json.loads`; the chatbots parse
model output into such values.  Numbers are modelled as integers (no claim
involves non-integer numerals). -/
inductive Json where
  | null
  | bool (b : Bool)
  | num (n : Int)
  | str (s : String)
  | arr (elems : List Json)
  | obj (fields : List (String × Json))

/-- First binding of a key in a JSON object, modelling Python dict lookup
(dict keys are unique, so first binding is the binding). -/
def lookupField : List (String × Json) → String → Option Json
  | [], _ => none
  | (k, v) :: rest, key => if k = key then some v else lookupField rest key

/-- Whether a JSON value is an object (a Python dict). -/
def Json.isObj : Json → Bool
  | .obj _ => true
  | _ => false

/-- A Python exception escaping the chatbot code, as observed by the caller
(`str(e)` is modelled by `pyStr`). -/
inductive PyErr where
  | indexError
  | attributeError
  | storeError (msg : String)
  | modelError (msg : String)
deriving DecidableEq

/-- Models Python `str(e)` for the exceptions of this embedding; store and
model errors carry the collaborator's message verbatim. -/
def pyStr : PyErr → String
  | .indexError => "list index out of range"
  | .attributeError => "object has no attribute get"
  | .storeError m => m
  | .modelError m => m

/-- Python `d.get(k)`: `None` when missing, `AttributeError` when the
receiver is not a dict. -/
def Json.pyGet : Json → String → Except PyErr (Option Json)
  | .obj fs, k => .ok (lookupField fs k)
  | _, _ => .error .attributeError

/-- Python `d.get(k, default)`. -/
def Json.pyGetD : Json → String → Json → Except PyErr Json
  | .obj fs, k, d => .ok ((lookupField fs k).getD d)
  | _, _, _ => .error .attributeError

/-- Python truthiness of a JSON-decoded value (`None`, `False`, `0`, empty
string/list/dict are falsy). -/
def Json.pyFalsy : Json → Bool
  | .null => true
  | .bool b => !b
  | .num n => n == 0
  | .str s => s.data.isEmpty
  | .arr l => l.isEmpty
  | .obj fs => fs.isEmpty

/-- Truthiness of `d.get(k)`: `None` (absent) is falsy. -/
def optFalsy : Option Json → Bool
  | none => true
  | some j => j.pyFalsy

/-- Python string helpers, modelled structurally over the character list. -/
def pyStartsWith (s p : String) : Bool := p.data.isPrefixOf s.data

/-- Models Python `str.strip()` (leading and trailing whitespace removed). -/
def pyStrip (s : String) : String :=
  ⟨((s.data.dropWhile Char.isWhitespace).reverse.dropWhile Char.isWhitespace).reverse⟩

/-- Models Python `sep.join(parts)`. -/
def pyJoin (sep : String) : List String → String
  | [] => ""
  | [x] => x
  | x :: y :: rest => x ++ sep ++ pyJoin sep (y :: rest)

/-- Accumulator for `splitlines`: splits at each newline character. -/
def splitlinesAux : List Char → List Char → List String
  | cur, [] => [⟨cur.reverse⟩]
  | cur, c :: rest =>
    if c = '\n' then ⟨cur.reverse⟩ :: splitlinesAux [] rest
    else splitlinesAux (c :: cur) rest

/-- Models Python `str.splitlines()` for the strings this code feeds it:
the raw model text is stripped first, so there is no trailing line break
and the only break character is a newline. -/
def splitlines (s : String) : List String := splitlinesAux [] s.data

/-- The markdown code-fence marker tested by both chatbots. -/
def fence : String := "```"

/-- Python `parts[0]`, raising `IndexError` on an empty list. -/
def pyFirst : List String → Except PyErr String
  | [] => .error .indexError
  | x :: _ => .ok x

/-- Python `parts[-1]`, raising `IndexError` on an empty list. -/
def pyLast (l : List String) : Except PyErr String :=
  match l.getLast? with
  | some x => .ok x
  | none => .error .indexError

/-- Result of `json.loads` with the chatbots' `except` clause applied:
a parse failure yields the empty dict. -/
def loadResult : Option Json → Json
  | some j => j
  | none => Json.obj []

/-- Fence stripping and JSON parsing of `MovieChatbot.generate_cypher`
(`scripts/chatbot.py` lines 205-215) and of
`GeminiMovieChatbot.generate_cypher` (`scripts/gemini_chatbot.py` lines
53-63), which are textually identical: strip, test for a leading fence,
drop the first line if it is a fence, drop the last line if it is a fence
(`parts[-1]` is indexed without an emptiness guard), rejoin.  The
subsequent `json.loads` step is `parseStripped` below, whose `loads` oracle
models `json.loads` (`none` = `JSONDecodeError`). -/
def stripFencesRaising (raw : String) : Except PyErr String :=
  if pyStartsWith raw fence then
    match pyFirst (splitlines raw) with
    | .error e => .error e
    | .ok h =>
      let parts := if pyStartsWith h fence then (splitlines raw).drop 1
                   else splitlines raw
      match pyLast parts with
      | .error e => .error e
      | .ok t =>
        .ok (pyJoin "\n" (if pyStartsWith t fence then parts.dropLast else parts))
  else .ok raw

/-- The `json.loads` step shared by `generate_cypher` and
`understand_question` after fence stripping: a `JSONDecodeError` yields the
empty dict, any other parse result is returned as is. -/
def parseStripped (loads : String → Option Json) :
    Except PyErr String → Except PyErr Json
  | .error e => .error e
  | .ok raw2 => .ok (loadResult (loads raw2))

/-- Full `generate_cypher` output handling: `strip`, fence stripping with
unguarded indexing, then JSON parsing. -/
def generate_cypher_parse (loads : String → Option Json) (text : String) :
    Except PyErr Json :=
  parseStripped loads (stripFencesRaising (pyStrip text))

/-- Fence stripping and JSON parsing of `MovieChatbot.understand_question`
(`scripts/chatbot.py` lines 147-163).  Unlike `generate_cypher`, both
slicing steps are guarded by `if lines and ...`, so indexing only happens
on a non-empty list. -/
def stripFencesGuardedSteps (raw : String) : Except PyErr String :=
  if pyStartsWith raw fence then
    let lines := splitlines raw
    match (if !lines.isEmpty then
             match pyFirst lines with
             | .error e => .error e
             | .ok h => .ok (if pyStartsWith h fence then lines.drop 1 else lines)
           else .ok lines : Except PyErr (List String)) with
    | .error e => .error e
    | .ok lines1 =>
      match (if !lines1.isEmpty then
               match pyLast lines1 with
               | .error e => .error e
               | .ok t => .ok (if pyStartsWith t fence then lines1.dropLast else lines1)
             else .ok lines1 : Except PyErr (List String)) with
      | .error e => .error e
      | .ok lines2 => .ok (pyJoin "\n" lines2)
  else .ok raw

/-- Full `understand_question` output handling: `strip`, guarded fence
stripping, then JSON parsing. -/
def understand_question_parse (loads : String → Option Json) (text : String) :
    Except PyErr Json :=
  parseStripped loads (stripFencesGuardedSteps (pyStrip text))

/-- The total fence-stripping function the guarded code computes: drop a
leading fence line and a trailing fence line when present.  Used to state
what the parsers return on non-raising inputs. -/
def stripFences (raw : String) : String :=
  if pyStartsWith raw fence then
    let lines := splitlines raw
    let lines1 := match lines with
      | [] => []
      | l :: rest => if pyStartsWith l fence then rest else l :: rest
    let lines2 := match lines1.getLast? with
      | some t => if pyStartsWith t fence then lines1.dropLast else lines1
      | none => lines1
    pyJoin "\n" lines2
  else raw

example : splitlines "a\nb" = ["a", "b"] := rfl
example : pyStrip "  x " = "x" := rfl
example : pyStartsWith "```json" fence = true := rfl
example : generate_cypher_parse (fun _ => none) "```" = .error .indexError := rfl
example : understand_question_parse (fun _ => none) "```" = .ok (Json.obj []) := rfl

/-- Single-quote character, used by the Python f-strings of the code. -/
def sQuote : String := String.singleton (Char.ofNat 39)

/-- A value in one column of a Neo4j result record, as the chat loop probes
it: either it exposes key-value pairs (`hasattr(value, "items")` — a
projected node/relationship, flattened to its properties) or it is a
scalar.  Leaf values are kept as their Python `str()` rendering. -/
inductive RValue where
  | scalar (v : String)
  | composite (props : List (String × String))

/-- One result record: an ordered mapping from output column name to value,
in the store's return order. -/
abbrev ResultRecord := List (String × RValue)

/-- The f-string `f"{k}: {v}"` used for every rendered entry. -/
def entryText (k v : String) : String := k ++ ": " ++ v

/-- The inner part-collection loop of the chat result formatting
(`scripts/chatbot.py` lines 234-240, `scripts/gemini_chatbot.py` lines
119-123): `parts` accumulates one entry per property of a composite value
and one `column: value` entry per scalar column, in record order. -/
def recordParts (rec : ResultRecord) : List String :=
  rec.foldl
    (fun parts kv =>
      match kv.2 with
      | .composite props =>
        props.foldl (fun ps pv => ps ++ [entryText pv.1 pv.2]) parts
      | .scalar v => parts ++ [entryText kv.1 v])
    []

/-- The header line `f"Results for '{user_question}':"`. -/
def resultsHeader (q : String) : String :=
  "Results for " ++ sQuote ++ q ++ sQuote ++ ":"

/-- The `raw_lines` accumulation of the chat loop: header line, then one
`"- "`-prefixed line per record, in the store's return order. -/
def rawLines (q : String) (records : List ResultRecord) : List String :=
  records.foldl
    (fun acc rec => acc ++ ["- " ++ pyJoin ", " (recordParts rec)])
    [resultsHeader q]

/-- `raw_text = "\n".join(raw_lines)`. -/
def rawText (q : String) (records : List ResultRecord) : String :=
  pyJoin "\n" (rawLines q records)

/-- The grounding message both chat methods build from the question and the
formatted results block and append to history before synthesis. -/
def userMsg (q rtext : String) : String :=
  "User question: " ++ q ++ "\nDatabase query results:\n" ++ rtext ++
    "\nPlease answer the question based on these results."

/-- One history entry, exactly the `{"role": ..., "content": ...}` dict the
code appends to `self.history`. -/
structure Turn where
  role : String
  content : String
deriving DecidableEq

/-- One observable interaction with the graph store during a chat call:
opening a scoped session, or invoking `session.run` with the (possibly
absent) query value and the params value. -/
inductive StoreOp where
  | openSession
  | runQuery (query : Option Json) (params : Json)

/-- Everything one chat call produces: the value returned to the caller (or
the exception that escaped), the history after the call, and the trace of
store interactions. -/
structure ChatResult where
  outcome : Except PyErr String
  history : List Turn
  storeOps : List StoreOp

/-- Oracles for `MovieChatbot.chat`: `gen` is the cypher-generation model
round trip (raw response text, or the exception it raised), `loads` is
`json.loads`, `runStore` is `session.run` plus eager materialization, and
`synth` is the final chat-completion round trip on the message list it is
given. -/
structure MovieEnv where
  gen : Except PyErr String
  loads : String → Option Json
  runStore : Option Json → Json → Except PyErr (List ResultRecord)
  synth : List Turn → Except PyErr String

/-- Oracles for `GeminiMovieChatbot.chat`; its synthesis call receives one
combined prompt string rather than a message list. -/
structure GeminiEnv where
  gen : Except PyErr String
  loads : String → Option Json
  runStore : Option Json → Json → Except PyErr (List ResultRecord)
  synth : String → Except PyErr String

/-- The fixed zero-result message of `MovieChatbot.chat` (line 230). -/
def apologyNoResults : String :=
  "Sorry, I couldn" ++ sQuote ++ "t find anything for your question."

/-- The fixed zero-result message of `GeminiMovieChatbot.chat` (line 115). -/
def apologyNoResultsGemini : String :=
  "Sorry, I couldn" ++ sQuote ++ "t find anything."

/-- The fixed empty-query message of `GeminiMovieChatbot.chat` (line 110). -/
def apologyNoQueryGemini : String :=
  "Sorry, couldn" ++ sQuote ++ "t generate query."

/-- The system instruction of `MovieChatbot.chat` (lines 245-248). -/
def deepseekSystemMsg : String :=
  "You are ChatGPT, an AI assistant specialized in answering movie database queries. Use the provided query results to answer the user question concisely and clearly, in markdown format when appropriate."

/-- The system instruction of `GeminiMovieChatbot.chat` (lines 127-132). -/
def geminiSystemMsg : String :=
  "You are a friendly, human-like movie expert chatting with the user. Use the full conversation context to handle follow-up questions and references naturally. Respond in a warm, conversational tone as if talking in person, using Markdown when helpful. If the user asks for details or actors, query the database accordingly."

/-- `MovieChatbot.generate_cypher` (lines 191-215): one model round trip,
then the fence-strip-and-parse step. -/
def MovieChatbot.generate (env : MovieEnv) : Except PyErr Json :=
  match env.gen with
  | .error e => .error e
  | .ok text => generate_cypher_parse env.loads text

/-- `MovieChatbot.chat` (`scripts/chatbot.py` lines 217-265), translated
statement by statement.  History appends, store-session opening and
`session.run` invocation are made observable in the `ChatResult`. -/
def MovieChatbot.chat (env : MovieEnv) (history : List Turn) (q : String) :
    ChatResult :=
  let hist1 := history ++ [⟨"user", q⟩]
  match MovieChatbot.generate env with
  | .error e => ⟨.error e, hist1, []⟩
  | .ok info =>
    match info.pyGet "query" with
    | .error e => ⟨.error e, hist1, []⟩
    | .ok query =>
      match info.pyGetD "params" (Json.obj []) with
      | .error e => ⟨.error e, hist1, []⟩
      | .ok params =>
        let ops := [StoreOp.openSession, StoreOp.runQuery query params]
        match env.runStore query params with
        | .error e => ⟨.error e, hist1, ops⟩
        | .ok records =>
          if records.isEmpty then
            ⟨.ok apologyNoResults, hist1, ops⟩
          else
            let rtext := rawText q records
            let hist2 := hist1 ++ [⟨"user", userMsg q rtext⟩]
            match env.synth (⟨"system", deepseekSystemMsg⟩ :: hist2) with
            | .error e => ⟨.error e, hist2, ops⟩
            | .ok ans =>
              let answer := pyStrip ans
              ⟨.ok answer, hist2 ++ [⟨"assistant", answer⟩], ops⟩

/-- `GeminiMovieChatbot.generate_cypher` (lines 40-63): identical parsing
logic after its own model round trip. -/
def GeminiChatbot.generate (env : GeminiEnv) : Except PyErr Json :=
  match env.gen with
  | .error e => .error e
  | .ok text => generate_cypher_parse env.loads text

/-- The `role: content` rendering Gemini uses to fold history into one
prompt string (line 142). -/
def renderHistory (l : List Turn) : String :=
  pyJoin "\n" (l.map (fun m => m.role ++ ": " ++ m.content))

/-- `GeminiMovieChatbot.chat` (`scripts/gemini_chatbot.py` lines 100-151).
Unlike `MovieChatbot.chat` it rejects a falsy query value before touching
the store. -/
def GeminiChatbot.chat (env : GeminiEnv) (history : List Turn) (q : String) :
    ChatResult :=
  let hist1 := history ++ [⟨"user", q⟩]
  match GeminiChatbot.generate env with
  | .error e => ⟨.error e, hist1, []⟩
  | .ok info =>
    match info.pyGet "query" with
    | .error e => ⟨.error e, hist1, []⟩
    | .ok query =>
      match info.pyGetD "params" (Json.obj []) with
      | .error e => ⟨.error e, hist1, []⟩
      | .ok params =>
        if optFalsy query then
          ⟨.ok apologyNoQueryGemini, hist1, []⟩
        else
          let ops := [StoreOp.openSession, StoreOp.runQuery query params]
          match env.runStore query params with
          | .error e => ⟨.error e, hist1, ops⟩
          | .ok records =>
            if records.isEmpty then
              ⟨.ok apologyNoResultsGemini, hist1, ops⟩
            else
              let rtext := rawText q records
              let hist2 := hist1 ++ [⟨"user", userMsg q rtext⟩]
              let combined := geminiSystemMsg ++ "\n" ++ renderHistory hist2
              match env.synth combined with
              | .error e => ⟨.error e, hist2, ops⟩
              | .ok ans =>
                let answer := pyStrip ans
                ⟨.ok answer, hist2 ++ [⟨"assistant", answer⟩], ops⟩

/-- The prefix of the catch-all answer of the `/chat` endpoint. -/
def problemPrefix : String := "Sorry, I had a problem: "

/-- The `/chat` endpoint of `app.py` (lines 155-165): the bot's return
value is passed through, and any exception `e` is converted to
`f"Sorry, I had a problem: {str(e)}"`. -/
def appChatAnswer : Except PyErr String → String
  | .ok a => a
  | .error e => problemPrefix ++ pyStr e

/-- One of the canned parameterized queries `search_database` can dispatch
to, each standing for the corresponding data-access method of
`MovieChatbot` with the entity value it receives. -/
inductive CannedQuery where
  | byActor (name : Option Json)
  | byDirector (name : Option Json)
  | byGenre (genre : Option Json)
  | topRated (limit : Json)

/-- Python `intent == "tag"` where `intent` came from `d.get("intent")`:
true only for an equal string (comparison with `None` or a non-string
value is `False`). -/
def optEqStr (o : Option Json) (s : String) : Bool :=
  match o with
  | some (.str t) => t == s
  | _ => false

/-- `MovieChatbot.search_database` (`scripts/chatbot.py` lines 165-179):
reads `intent` and `entities` from the extracted info, dispatches to one of
four canned queries (the top-rated branch defaulting `limit` to 5, matching
`entities.get("limit", 5)` and `get_top_rated_movies(limit=5)` at lines
84 and 177), and returns the empty list for any other intent.  `store`
models the graph store's response to each canned query; the returned first
component is the list of queries actually issued. -/
def search_database (store : CannedQuery → List ResultRecord)
    (searchInfo : Json) :
    Except PyErr (List CannedQuery × List ResultRecord) :=
  match searchInfo.pyGet "intent" with
  | .error e => .error e
  | .ok intent =>
    match searchInfo.pyGetD "entities" (Json.obj []) with
    | .error e => .error e
    | .ok entities =>
      if optEqStr intent "search_movies_by_actor" then
        match entities.pyGet "actor_name" with
        | .error e => .error e
        | .ok v => .ok ([.byActor v], store (.byActor v))
      else if optEqStr intent "search_movies_by_director" then
        match entities.pyGet "director_name" with
        | .error e => .error e
        | .ok v => .ok ([.byDirector v], store (.byDirector v))
      else if optEqStr intent "search_movies_by_genre" then
        match entities.pyGet "genre" with
        | .error e => .error e
        | .ok v => .ok ([.byGenre v], store (.byGenre v))
      else if optEqStr intent "get_top_rated_movies" then
        match entities.pyGetD "limit" (Json.num 5) with
        | .error e => .error e
        | .ok v => .ok ([.topRated v], store (.topRated v))
      else
        .ok ([], [])

/-- Spec-side statement of the normalization rule (section 4.3 of the
spec): per column, a value exposing key-value pairs is flattened to one
`prop: value` entry per property, a scalar column is rendered as
`column: value`, in the store's return order. -/
def entriesOfRecord : ResultRecord → List String
  | [] => []
  | (_, RValue.composite props) :: rest =>
    props.map (fun pv => entryText pv.1 pv.2) ++ entriesOfRecord rest
  | (k, RValue.scalar v) :: rest =>
    entryText k v :: entriesOfRecord rest

theorem foldl_push_eq_map {α : Type} (g : α → String) :
    ∀ (l : List α) (init : List String),
      l.foldl (fun acc x => acc ++ [g x]) init = init ++ l.map g := by
  intro l
  induction l with
  | nil => intro init; simp
  | cons x rest ih =>
    intro init
    simp only [List.foldl_cons, List.map_cons, ih]
    simp

theorem recordParts_from (rec : ResultRecord) :
    ∀ (init : List String),
      rec.foldl
        (fun parts kv =>
          match kv.2 with
          | .composite props =>
            props.foldl (fun ps pv => ps ++ [entryText pv.1 pv.2]) parts
          | .scalar v => parts ++ [entryText kv.1 v])
        init = init ++ entriesOfRecord rec := by
  induction rec with
  | nil => intro init; simp [entriesOfRecord]
  | cons kv rest ih =>
    intro init
    obtain ⟨k, v⟩ := kv
    cases v with
    | scalar s =>
      simp only [List.foldl_cons, entriesOfRecord, ih]
      simp
    | composite props =>
      simp only [List.foldl_cons, entriesOfRecord, ih,
        foldl_push_eq_map (fun pv => entryText pv.1 pv.2) props]
      simp

theorem recordParts_eq_entries (rec : ResultRecord) :
    recordParts rec = entriesOfRecord rec := by
  have h := recordParts_from rec []
  simpa [recordParts] using h

/-- Claim C6: for every result record sequence, normalization renders each
record as one line in which every column value exposing key-value pairs is
expanded to one `prop: value` entry per property and every scalar column is
rendered as `column: value`, with columns and records in the store's return
order (no re-sorting): the `raw_lines` block built by both chat methods is
exactly the header followed by one such line per record, in order. -/
theorem claimC6_normalization (q : String) (records : List ResultRecord) :
    rawLines q records =
      resultsHeader q ::
        records.map (fun rec => "- " ++ pyJoin ", " (entriesOfRecord rec)) := by
  have h := foldl_push_eq_map
    (fun rec => "- " ++ pyJoin ", " (recordParts rec)) records [resultsHeader q]
  rw [rawLines]
  rw [show (fun (acc : List String) (rec : ResultRecord) =>
        acc ++ ["- " ++ pyJoin ", " (recordParts rec)]) =
      (fun acc rec =>
        acc ++ [(fun rec => "- " ++ pyJoin ", " (recordParts rec)) rec]) from rfl]
  rw [h]
  simp [recordParts_eq_entries]

theorem movieChat_extends (env : MovieEnv) (hist : List Turn) (q : String) :
    ∃ t, (MovieChatbot.chat env hist q).history = hist ++ t := by
  simp only [MovieChatbot.chat]
  repeat' split
  all_goals simp only [List.append_assoc]
  all_goals exact ⟨_, rfl⟩

theorem geminiChat_extends (env : GeminiEnv) (hist : List Turn) (q : String) :
    ∃ t, (GeminiChatbot.chat env hist q).history = hist ++ t := by
  simp only [GeminiChatbot.chat]
  repeat' split
  all_goals simp only [List.append_assoc]
  all_goals exact ⟨_, rfl⟩

/-- Claim C8: the conversation history is append-only: for every call to
either chat method, on every path (success, empty translation, empty
results, or failure), the history after the call extends the history before
the call — the old history is a prefix, and no turn is removed, reordered
or modified. -/
theorem claimC8_append_only :
    (∀ (env : MovieEnv) (hist : List Turn) (q : String),
      ∃ t, (MovieChatbot.chat env hist q).history = hist ++ t) ∧
    (∀ (env : GeminiEnv) (hist : List Turn) (q : String),
      ∃ t, (GeminiChatbot.chat env hist q).history = hist ++ t) :=
  ⟨movieChat_extends, geminiChat_extends⟩

theorem movieChat_success_eq (env : MovieEnv) (hist : List Turn) (q : String)
    (info : Json) (qv : Option Json) (params : Json)
    (records : List ResultRecord) (ans : String)
    (hg : MovieChatbot.generate env = .ok info)
    (hq : info.pyGet "query" = .ok qv)
    (hp : info.pyGetD "params" (Json.obj []) = .ok params)
    (hr : env.runStore qv params = .ok records)
    (hne : records.isEmpty = false)
    (hs : env.synth (⟨"system", deepseekSystemMsg⟩ ::
            (hist ++ [⟨"user", q⟩] ++ [⟨"user", userMsg q (rawText q records)⟩]))
          = .ok ans) :
    MovieChatbot.chat env hist q =
      ⟨.ok (pyStrip ans),
       hist ++ [⟨"user", q⟩, ⟨"user", userMsg q (rawText q records)⟩,
                ⟨"assistant", pyStrip ans⟩],
       [.openSession, .runQuery qv params]⟩ := by
  simp only [MovieChatbot.chat, hg, hq, hp, hr, hne, hs]
  simp

theorem geminiChat_success_eq (env : GeminiEnv) (hist : List Turn) (q : String)
    (info : Json) (qv : Option Json) (params : Json)
    (records : List ResultRecord) (ans : String)
    (hg : GeminiChatbot.generate env = .ok info)
    (hq : info.pyGet "query" = .ok qv)
    (hp : info.pyGetD "params" (Json.obj []) = .ok params)
    (hf : optFalsy qv = false)
    (hr : env.runStore qv params = .ok records)
    (hne : records.isEmpty = false)
    (hs : env.synth (geminiSystemMsg ++ "\n" ++
            renderHistory
              (hist ++ [⟨"user", q⟩] ++ [⟨"user", userMsg q (rawText q records)⟩]))
          = .ok ans) :
    GeminiChatbot.chat env hist q =
      ⟨.ok (pyStrip ans),
       hist ++ [⟨"user", q⟩, ⟨"user", userMsg q (rawText q records)⟩,
                ⟨"assistant", pyStrip ans⟩],
       [.openSession, .runQuery qv params]⟩ := by
  simp only [GeminiChatbot.chat, hg, hq, hp, hf, hr, hne, hs]
  simp

theorem movieChat_empty_results (env : MovieEnv) (hist : List Turn) (q : String)
    (info : Json) (qv : Option Json) (params : Json)
    (hg : MovieChatbot.generate env = .ok info)
    (hq : info.pyGet "query" = .ok qv)
    (hp : info.pyGetD "params" (Json.obj []) = .ok params)
    (hr : env.runStore qv params = .ok []) :
    MovieChatbot.chat env hist q =
      ⟨.ok apologyNoResults, hist ++ [⟨"user", q⟩],
       [.openSession, .runQuery qv params]⟩ := by
  simp only [MovieChatbot.chat, hg, hq, hp, hr]
  simp

theorem geminiChat_empty_results (env : GeminiEnv) (hist : List Turn)
    (q : String) (info : Json) (qv : Option Json) (params : Json)
    (hg : GeminiChatbot.generate env = .ok info)
    (hq : info.pyGet "query" = .ok qv)
    (hp : info.pyGetD "params" (Json.obj []) = .ok params)
    (hf : optFalsy qv = false)
    (hr : env.runStore qv params = .ok []) :
    GeminiChatbot.chat env hist q =
      ⟨.ok apologyNoResultsGemini, hist ++ [⟨"user", q⟩],
       [.openSession, .runQuery qv params]⟩ := by
  simp only [GeminiChatbot.chat, hg, hq, hp, hf, hr]
  simp

theorem geminiChat_empty_query (env : GeminiEnv) (hist : List Turn)
    (q : String) (info : Json) (qv : Option Json) (params : Json)
    (hg : GeminiChatbot.generate env = .ok info)
    (hq : info.pyGet "query" = .ok qv)
    (hp : info.pyGetD "params" (Json.obj []) = .ok params)
    (hf : optFalsy qv = true) :
    GeminiChatbot.chat env hist q =
      ⟨.ok apologyNoQueryGemini, hist ++ [⟨"user", q⟩], []⟩ := by
  simp only [GeminiChatbot.chat, hg, hq, hp, hf]
  simp

theorem movieChat_runs_absent_query (env : MovieEnv) (hist : List Turn)
    (q : String) (info : Json) (params : Json)
    (hg : MovieChatbot.generate env = .ok info)
    (hq : info.pyGet "query" = .ok none)
    (hp : info.pyGetD "params" (Json.obj []) = .ok params) :
    (MovieChatbot.chat env hist q).storeOps =
      [.openSession, .runQuery none params] := by
  simp only [MovieChatbot.chat, hg, hq, hp]
  split
  · rfl
  · split
    · rfl
    · split
      · rfl
      · rfl

/-- Translation result with a dict that has no `query` field: models the
model replying `"{}"` (or any JSON object without `query`). -/
def loadsNoQuery : String → Option Json := fun _ => some (Json.obj [])

/-- Translation result carrying a `query` field. -/
def loadsQueryOnly : String → Option Json :=
  fun _ => some (Json.obj [("query", Json.str "MATCH (m) RETURN m")])

/-- MovieChatbot oracle for an empty translation: the store rejects the
absent query text, as the Neo4j driver does for `session.run(None)`. -/
def envAbsentQuery : MovieEnv :=
  ⟨.ok "irrelevant", loadsNoQuery,
   fun _ _ => .error (.storeError "Cannot run an empty query"),
   fun _ => .ok "unused"⟩

/-- GeminiMovieChatbot oracle for an empty translation. -/
def envAbsentQueryGem : GeminiEnv :=
  ⟨.ok "irrelevant", loadsNoQuery, fun _ _ => .ok [], fun _ => .ok "unused"⟩

/-- Claim C1 as stated is false for `MovieChatbot.chat`: on a translation
with no `query` field, it does not return a fixed apology and it does
invoke the query executor — a store session is opened and `session.run` is
called with the absent query, whose store-level failure escapes as an
exception. -/
theorem claimC1_counterexample :
    MovieChatbot.chat envAbsentQuery [] "What is the rating of Inception?" =
      ⟨.error (.storeError "Cannot run an empty query"),
       [⟨"user", "What is the rating of Inception?"⟩],
       [.openSession, .runQuery none (Json.obj [])]⟩ := rfl

/-- Claim C1 amended: only `GeminiMovieChatbot.chat` guards the empty
translation — when the parsed info has an absent or falsy `query` value it
returns the fixed apology, opens no store session and runs no query;
`MovieChatbot.chat` has no such guard and always opens a session and
invokes `session.run`, passing the absent query to the store. -/
theorem claimC1_amended :
    (∀ (env : GeminiEnv) (hist : List Turn) (q : String)
        (info : Json) (qv : Option Json) (params : Json),
      GeminiChatbot.generate env = .ok info →
      info.pyGet "query" = .ok qv →
      info.pyGetD "params" (Json.obj []) = .ok params →
      optFalsy qv = true →
      GeminiChatbot.chat env hist q =
        ⟨.ok apologyNoQueryGemini, hist ++ [⟨"user", q⟩], []⟩) ∧
    (∀ (env : MovieEnv) (hist : List Turn) (q : String)
        (info : Json) (params : Json),
      MovieChatbot.generate env = .ok info →
      info.pyGet "query" = .ok none →
      info.pyGetD "params" (Json.obj []) = .ok params →
      (MovieChatbot.chat env hist q).storeOps =
        [.openSession, .runQuery none params]) :=
  ⟨fun env hist q info qv params hg hq hp hf =>
     geminiChat_empty_query env hist q info qv params hg hq hp hf,
   fun env hist q info params hg hq hp =>
     movieChat_runs_absent_query env hist q info params hg hq hp⟩

theorem claimC1_witness :
    GeminiChatbot.chat envAbsentQueryGem [] "hi" =
      ⟨.ok apologyNoQueryGemini, [⟨"user", "hi"⟩], []⟩ ∧
    (MovieChatbot.chat envAbsentQuery [] "hi").storeOps =
      [.openSession, .runQuery none (Json.obj [])] :=
  ⟨claimC1_amended.1 envAbsentQueryGem [] "hi" (Json.obj []) none (Json.obj [])
     rfl rfl rfl rfl,
   claimC1_amended.2 envAbsentQuery [] "hi" (Json.obj []) (Json.obj [])
     rfl rfl rfl⟩

/-- MovieChatbot oracle for an execution that returns zero records. -/
def envNoRows : MovieEnv :=
  ⟨.ok "x", loadsQueryOnly, fun _ _ => .ok [], fun _ => .ok "unused"⟩

/-- GeminiMovieChatbot oracle for an execution that returns zero records. -/
def envNoRowsGem : GeminiEnv :=
  ⟨.ok "x", loadsQueryOnly, fun _ _ => .ok [], fun _ => .ok "unused"⟩

/-- Claim C2 as stated is false: on an execution returning zero records,
`MovieChatbot.chat` returns the fixed message but does not append it to the
history — the history after the call holds only the user turn (growth of
exactly 1, not 2, with no assistant turn). -/
theorem claimC2_counterexample :
    MovieChatbot.chat envNoRows [] "hi" =
      ⟨.ok apologyNoResults, [⟨"user", "hi"⟩],
       [.openSession,
        .runQuery (some (Json.str "MATCH (m) RETURN m")) (Json.obj [])]⟩ := rfl

/-- Claim C2 amended: for every execution that returns zero records, each
chat method returns its fixed no-results message, but the message is not
recorded: the history grows by exactly one turn — the user question — with
no assistant turn and no grounding turn. -/
theorem claimC2_amended :
    (∀ (env : MovieEnv) (hist : List Turn) (q : String)
        (info : Json) (qv : Option Json) (params : Json),
      MovieChatbot.generate env = .ok info →
      info.pyGet "query" = .ok qv →
      info.pyGetD "params" (Json.obj []) = .ok params →
      env.runStore qv params = .ok [] →
      MovieChatbot.chat env hist q =
        ⟨.ok apologyNoResults, hist ++ [⟨"user", q⟩],
         [.openSession, .runQuery qv params]⟩) ∧
    (∀ (env : GeminiEnv) (hist : List Turn) (q : String)
        (info : Json) (qv : Option Json) (params : Json),
      GeminiChatbot.generate env = .ok info →
      info.pyGet "query" = .ok qv →
      info.pyGetD "params" (Json.obj []) = .ok params →
      optFalsy qv = false →
      env.runStore qv params = .ok [] →
      GeminiChatbot.chat env hist q =
        ⟨.ok apologyNoResultsGemini, hist ++ [⟨"user", q⟩],
         [.openSession, .runQuery qv params]⟩) :=
  ⟨fun env hist q info qv params hg hq hp hr =>
     movieChat_empty_results env hist q info qv params hg hq hp hr,
   fun env hist q info qv params hg hq hp hf hr =>
     geminiChat_empty_results env hist q info qv params hg hq hp hf hr⟩

theorem claimC2_witness :
    MovieChatbot.chat envNoRows [] "ask" =
      ⟨.ok apologyNoResults, [⟨"user", "ask"⟩],
       [.openSession,
        .runQuery (some (Json.str "MATCH (m) RETURN m")) (Json.obj [])]⟩ ∧
    GeminiChatbot.chat envNoRowsGem [] "ask" =
      ⟨.ok apologyNoResultsGemini, [⟨"user", "ask"⟩],
       [.openSession,
        .runQuery (some (Json.str "MATCH (m) RETURN m")) (Json.obj [])]⟩ :=
  ⟨claimC2_amended.1 envNoRows [] "ask" (Json.obj [("query", Json.str "MATCH (m) RETURN m")])
     (some (Json.str "MATCH (m) RETURN m")) (Json.obj []) rfl rfl rfl rfl,
   claimC2_amended.2 envNoRowsGem [] "ask" (Json.obj [("query", Json.str "MATCH (m) RETURN m")])
     (some (Json.str "MATCH (m) RETURN m")) (Json.obj []) rfl rfl rfl rfl rfl⟩

/-- MovieChatbot oracle whose store call fails with an internal message. -/
def envBoom : MovieEnv :=
  ⟨.ok "x", loadsQueryOnly, fun _ _ => .error (.storeError "boom"),
   fun _ => .ok "unused"⟩

/-- GeminiMovieChatbot oracle whose store call fails with an internal
message. -/
def envBoomGem : GeminiEnv :=
  ⟨.ok "x", loadsQueryOnly, fun _ _ => .error (.storeError "boom"),
   fun _ => .ok "unused"⟩

/-- Claim C3 as stated is false: an execution failure is caught at the web
boundary (`app.py` line 165), but the answer handed to the end user is
`"Sorry, I had a problem: " + str(e)` — it contains the store's internal
error text (`"boom"` here), so the answer is not one of three fixed
strings. -/
theorem claimC3_counterexample :
    (MovieChatbot.chat envBoom [] "hi").outcome = .error (.storeError "boom") ∧
    appChatAnswer (MovieChatbot.chat envBoom [] "hi").outcome =
      problemPrefix ++ "boom" := ⟨rfl, rfl⟩

/-- Claim C3 amended: every translation, execution or synthesis failure is
caught at the `/chat` endpoint and converted to an answer string, so no
exception reaches the end user; but the catch-all answer embeds the
exception's own message `str(e)` after the fixed prefix, so internal error
text can be contained in the answer. -/
theorem claimC3_amended :
    (∀ (env : MovieEnv) (hist : List Turn) (q : String) (e : PyErr),
      (MovieChatbot.chat env hist q).outcome = .error e →
      appChatAnswer (MovieChatbot.chat env hist q).outcome =
        problemPrefix ++ pyStr e) ∧
    (∀ (env : GeminiEnv) (hist : List Turn) (q : String) (e : PyErr),
      (GeminiChatbot.chat env hist q).outcome = .error e →
      appChatAnswer (GeminiChatbot.chat env hist q).outcome =
        problemPrefix ++ pyStr e) := by
  constructor <;> intro env hist q e h <;> rw [h] <;> rfl

theorem claimC3_witness :
    appChatAnswer (MovieChatbot.chat envBoom [] "ask").outcome =
      problemPrefix ++ pyStr (.storeError "boom") ∧
    appChatAnswer (GeminiChatbot.chat envBoomGem [] "ask").outcome =
      problemPrefix ++ pyStr (.storeError "boom") :=
  ⟨claimC3_amended.1 envBoom [] "ask" (.storeError "boom") rfl,
   claimC3_amended.2 envBoomGem [] "ask" (.storeError "boom") rfl⟩

theorem pyLast_cons_ok (x : String) (xs : List String) :
    ∃ t, pyLast (x :: xs) = .ok t ∧ (x :: xs).getLast? = some t := by
  unfold pyLast
  cases h : (x :: xs).getLast? with
  | some t => exact ⟨t, rfl, rfl⟩
  | none => simp [List.getLast?_eq_none_iff] at h

theorem stripRaising_ok (raw : String)
    (hok : pyStartsWith raw fence = true → 2 ≤ (splitlines raw).length) :
    stripFencesRaising raw = .ok (stripFences raw) := by
  unfold stripFencesRaising stripFences
  cases hsw : pyStartsWith raw fence with
  | false => simp
  | true =>
    have hlen := hok hsw
    rcases hsp : splitlines raw with _ | ⟨a, _ | ⟨b, rest⟩⟩
    · rw [hsp] at hlen; simp at hlen
    · rw [hsp] at hlen; simp at hlen
    · rw [hsp] at hlen
      simp only [eq_self_iff_true, if_true, pyFirst]
      cases hpa : pyStartsWith a fence with
      | true =>
        simp only [eq_self_iff_true, if_true, List.drop_one, List.tail_cons]
        obtain ⟨t, hpl, hgl⟩ := pyLast_cons_ok b rest
        rw [hpl, hgl]
      | false =>
        simp only [Bool.false_eq_true, if_false]
        obtain ⟨t, hpl, hgl⟩ := pyLast_cons_ok a (b :: rest)
        rw [hpl, hgl]

theorem stripGuarded_ok (raw : String) :
    stripFencesGuardedSteps raw = .ok (stripFences raw) := by
  unfold stripFencesGuardedSteps stripFences
  cases hsw : pyStartsWith raw fence with
  | false => simp
  | true =>
    rcases hsp : splitlines raw with _ | ⟨a, rest⟩
    · simp [pyJoin]
    · simp only [List.isEmpty_cons, Bool.not_false, eq_self_iff_true, if_true, pyFirst]
      cases hpa : pyStartsWith a fence with
      | true =>
        rcases rest with _ | ⟨b, rest2⟩
        · simp [pyJoin]
        · obtain ⟨t, hpl, hgl⟩ := pyLast_cons_ok b rest2
          simp [List.drop_one, hpl, hgl]
      | false =>
        obtain ⟨t, hpl, hgl⟩ := pyLast_cons_ok a rest
        simp [hpl, hgl]

/-- Claim C4 as stated is false: on a raw model response consisting of a
single fence line, `generate_cypher` strips the leading fence, leaving an
empty line list, and then indexes `parts[-1]`, raising `IndexError` instead
of yielding an empty StructuredQuery. -/
theorem claimC4_counterexample :
    generate_cypher_parse (fun _ => none) "```" = .error .indexError := rfl

/-- Claim C4 amended: for every raw model response whose stripped text does
not consist of a single line starting with a code fence, `generate_cypher`
strips one leading and one trailing fence line when the response starts
with a fence, strictly JSON-parses the remainder, and returns without
exception: a parse failure yields the empty dict (hence an absent `query`
field and an empty StructuredQuery), and a parsed object missing `query`
is returned as is, its `query` lookup being absent.  On a single-line
fence response the unguarded `parts[-1]` indexing raises `IndexError`
(the counterexample). -/
theorem claimC4_amended (loads : String → Option Json) (text : String)
    (hok : pyStartsWith (pyStrip text) fence = true →
           2 ≤ (splitlines (pyStrip text)).length) :
    generate_cypher_parse loads text =
      .ok (loadResult (loads (stripFences (pyStrip text)))) := by
  unfold generate_cypher_parse
  rw [stripRaising_ok (pyStrip text) hok]
  rfl

/-- Concrete `json.loads` behavior for the C4 witness: the stripped text
`"null"` parses to JSON null. -/
def loadsNullW : String → Option Json :=
  fun s => if s = "null" then some Json.null else none

theorem claimC4_witness :
    generate_cypher_parse loadsNullW "```\nnull\n```" =
      .ok (loadResult (loadsNullW (stripFences (pyStrip "```\nnull\n```")))) :=
  claimC4_amended loadsNullW "```\nnull\n```" (fun _ => by decide)

/-- Concrete `json.loads` behavior for the C9 counterexample: strict JSON
parsing of the text `"42"` succeeds with the number 42 (a non-object
top-level value), exactly as Python's `json.loads("42")` does. -/
def loadsNum : String → Option Json :=
  fun s => if s = "42" then some (Json.num 42) else none

/-- Claim C9 as stated is false in its "returns a dictionary" part: on the
model response `"42"`, `understand_question` returns the parsed JSON
number 42, which is not a dictionary.  (The totality/never-raises part is
true and is the amended theorem.) -/
theorem claimC9_counterexample :
    understand_question_parse loadsNum "42" = .ok (Json.num 42) ∧
    (Json.num 42).isObj = false := ⟨rfl, rfl⟩

/-- Claim C9 amended: `understand_question` is total over model response
texts: for every raw response string — including a single fence line or
empty text after fence stripping — it returns without exception, because
both fence-stripping slices are guarded by an emptiness check before
indexing; the returned value is the parsed JSON value (a dictionary
whenever the response is a JSON object) or the empty dictionary on parse
failure. -/
theorem claimC9_amended (loads : String → Option Json) (text : String) :
    understand_question_parse loads text =
      .ok (loadResult (loads (stripFences (pyStrip text)))) := by
  unfold understand_question_parse
  rw [stripGuarded_ok]
  rfl

/-- Claim C5: for every execution returning at least one record followed by
successful synthesis, each chat method grows the history by exactly three
turns, in order: the user question, the synthetic grounding turn holding
the formatted results block (the spec's system-context turn — the code
records it with role "user"), and the assistant answer; nothing else is
added or changed, as witnessed by the full history equality. -/
theorem claimC5_growth :
    (∀ (env : MovieEnv) (hist : List Turn) (q : String)
        (info : Json) (qv : Option Json) (params : Json)
        (records : List ResultRecord) (ans : String),
      MovieChatbot.generate env = .ok info →
      info.pyGet "query" = .ok qv →
      info.pyGetD "params" (Json.obj []) = .ok params →
      env.runStore qv params = .ok records →
      records.isEmpty = false →
      env.synth (⟨"system", deepseekSystemMsg⟩ ::
          (hist ++ [⟨"user", q⟩] ++ [⟨"user", userMsg q (rawText q records)⟩]))
        = .ok ans →
      MovieChatbot.chat env hist q =
        ⟨.ok (pyStrip ans),
         hist ++ [⟨"user", q⟩, ⟨"user", userMsg q (rawText q records)⟩,
                  ⟨"assistant", pyStrip ans⟩],
         [.openSession, .runQuery qv params]⟩) ∧
    (∀ (env : GeminiEnv) (hist : List Turn) (q : String)
        (info : Json) (qv : Option Json) (params : Json)
        (records : List ResultRecord) (ans : String),
      GeminiChatbot.generate env = .ok info →
      info.pyGet "query" = .ok qv →
      info.pyGetD "params" (Json.obj []) = .ok params →
      optFalsy qv = false →
      env.runStore qv params = .ok records →
      records.isEmpty = false →
      env.synth (geminiSystemMsg ++ "\n" ++
          renderHistory
            (hist ++ [⟨"user", q⟩] ++ [⟨"user", userMsg q (rawText q records)⟩]))
        = .ok ans →
      GeminiChatbot.chat env hist q =
        ⟨.ok (pyStrip ans),
         hist ++ [⟨"user", q⟩, ⟨"user", userMsg q (rawText q records)⟩,
                  ⟨"assistant", pyStrip ans⟩],
         [.openSession, .runQuery qv params]⟩) :=
  ⟨fun env hist q info qv params records ans hg hq hp hr hne hs =>
     movieChat_success_eq env hist q info qv params records ans hg hq hp hr hne hs,
   fun env hist q info qv params records ans hg hq hp hf hr hne hs =>
     geminiChat_success_eq env hist q info qv params records ans hg hq hp hf hr hne hs⟩

/-- A one-record result sequence used by concrete runs. -/
def recsW : List ResultRecord :=
  [[("m.title", RValue.scalar "Inception"), ("m.year", RValue.scalar "2010")]]

/-- MovieChatbot oracle for a successful end-to-end run. -/
def envRowsW : MovieEnv :=
  ⟨.ok "x", loadsQueryOnly, fun _ _ => .ok recsW,
   fun _ => .ok "It is Inception."⟩

/-- GeminiMovieChatbot oracle for a successful end-to-end run. -/
def envRowsGemW : GeminiEnv :=
  ⟨.ok "x", loadsQueryOnly, fun _ _ => .ok recsW,
   fun _ => .ok "It is Inception."⟩

theorem claimC5_witness :
    MovieChatbot.chat envRowsW [] "hi" =
      ⟨.ok (pyStrip "It is Inception."),
       [] ++ [⟨"user", "hi"⟩, ⟨"user", userMsg "hi" (rawText "hi" recsW)⟩,
              ⟨"assistant", pyStrip "It is Inception."⟩],
       [.openSession,
        .runQuery (some (Json.str "MATCH (m) RETURN m")) (Json.obj [])]⟩ ∧
    GeminiChatbot.chat envRowsGemW [] "hi" =
      ⟨.ok (pyStrip "It is Inception."),
       [] ++ [⟨"user", "hi"⟩, ⟨"user", userMsg "hi" (rawText "hi" recsW)⟩,
              ⟨"assistant", pyStrip "It is Inception."⟩],
       [.openSession,
        .runQuery (some (Json.str "MATCH (m) RETURN m")) (Json.obj [])]⟩ :=
  ⟨claimC5_growth.1 envRowsW [] "hi"
     (Json.obj [("query", Json.str "MATCH (m) RETURN m")])
     (some (Json.str "MATCH (m) RETURN m")) (Json.obj []) recsW
     "It is Inception." rfl rfl rfl rfl rfl rfl,
   claimC5_growth.2 envRowsGemW [] "hi"
     (Json.obj [("query", Json.str "MATCH (m) RETURN m")])
     (some (Json.str "MATCH (m) RETURN m")) (Json.obj []) recsW
     "It is Inception." rfl rfl rfl rfl rfl rfl rfl⟩

theorem get_append_second (l : List Turn) (u c a : Turn) :
    (l ++ [u, c, a]).get? (l.length + 1) = some c := by
  rw [List.get?_append_right (Nat.le_succ_of_le (Nat.le_refl _))]
  simp

/-- Claim C7: normalization is deterministic — the grounding turn content
appended on the success path is a pure function of the question and the
record sequence alone (the same `userMsg q (rawText q records)` for every
environment and every prior history), so formatting the same sequence
twice yields byte-identical text blocks. -/
theorem claimC7_determinism :
    (∀ (env : MovieEnv) (hist : List Turn) (q : String)
        (info : Json) (qv : Option Json) (params : Json)
        (records : List ResultRecord) (ans : String),
      MovieChatbot.generate env = .ok info →
      info.pyGet "query" = .ok qv →
      info.pyGetD "params" (Json.obj []) = .ok params →
      env.runStore qv params = .ok records →
      records.isEmpty = false →
      env.synth (⟨"system", deepseekSystemMsg⟩ ::
          (hist ++ [⟨"user", q⟩] ++ [⟨"user", userMsg q (rawText q records)⟩]))
        = .ok ans →
      (MovieChatbot.chat env hist q).history.get? (hist.length + 1) =
        some ⟨"user", userMsg q (rawText q records)⟩) ∧
    (∀ (env : GeminiEnv) (hist : List Turn) (q : String)
        (info : Json) (qv : Option Json) (params : Json)
        (records : List ResultRecord) (ans : String),
      GeminiChatbot.generate env = .ok info →
      info.pyGet "query" = .ok qv →
      info.pyGetD "params" (Json.obj []) = .ok params →
      optFalsy qv = false →
      env.runStore qv params = .ok records →
      records.isEmpty = false →
      env.synth (geminiSystemMsg ++ "\n" ++
          renderHistory
            (hist ++ [⟨"user", q⟩] ++ [⟨"user", userMsg q (rawText q records)⟩]))
        = .ok ans →
      (GeminiChatbot.chat env hist q).history.get? (hist.length + 1) =
        some ⟨"user", userMsg q (rawText q records)⟩) := by
  constructor
  · intro env hist q info qv params records ans hg hq hp hr hne hs
    rw [movieChat_success_eq env hist q info qv params records ans hg hq hp hr hne hs]
    exact get_append_second hist _ _ _
  · intro env hist q info qv params records ans hg hq hp hf hr hne hs
    rw [geminiChat_success_eq env hist q info qv params records ans hg hq hp hf hr hne hs]
    exact get_append_second hist _ _ _

theorem claimC7_witness :
    (MovieChatbot.chat envRowsW [] "hi").history.get? 1 =
      some ⟨"user", userMsg "hi" (rawText "hi" recsW)⟩ ∧
    (GeminiChatbot.chat envRowsGemW [⟨"user", "old"⟩, ⟨"assistant", "old"⟩]
        "hi").history.get? 3 =
      some ⟨"user", userMsg "hi" (rawText "hi" recsW)⟩ :=
  ⟨claimC7_determinism.1 envRowsW [] "hi"
     (Json.obj [("query", Json.str "MATCH (m) RETURN m")])
     (some (Json.str "MATCH (m) RETURN m")) (Json.obj []) recsW
     "It is Inception." rfl rfl rfl rfl rfl rfl,
   claimC7_determinism.2 envRowsGemW [⟨"user", "old"⟩, ⟨"assistant", "old"⟩]
     "hi" (Json.obj [("query", Json.str "MATCH (m) RETURN m")])
     (some (Json.str "MATCH (m) RETURN m")) (Json.obj []) recsW
     "It is Inception." rfl rfl rfl rfl rfl rfl rfl⟩

/-- Claim C10: for every extracted info whose `intent` value is not one of
the four recognized tags, `search_database` returns the empty list and
issues no query to the store; and when the intent is the top-rated one
with no `limit` entity, the limit defaults to 5. -/
theorem claimC10_dispatch :
    (∀ (store : CannedQuery → List ResultRecord) (fs : List (String × Json)),
      optEqStr (lookupField fs "intent") "search_movies_by_actor" = false →
      optEqStr (lookupField fs "intent") "search_movies_by_director" = false →
      optEqStr (lookupField fs "intent") "search_movies_by_genre" = false →
      optEqStr (lookupField fs "intent") "get_top_rated_movies" = false →
      search_database store (.obj fs) = .ok ([], [])) ∧
    (∀ (store : CannedQuery → List ResultRecord) (fs es : List (String × Json)),
      lookupField fs "intent" = some (.str "get_top_rated_movies") →
      lookupField fs "entities" = some (.obj es) →
      lookupField es "limit" = none →
      search_database store (.obj fs) =
        .ok ([.topRated (.num 5)], store (.topRated (.num 5)))) := by
  constructor
  · intro store fs h1 h2 h3 h4
    simp only [search_database, Json.pyGet, Json.pyGetD, h1, h2, h3, h4]
    simp
  · intro store fs es hi he hl
    simp only [search_database, Json.pyGet, Json.pyGetD, hi, he, hl]
    simp [optEqStr, hl]

theorem claimC10_witness :
    search_database (fun _ => recsW)
        (.obj [("intent", Json.str "chitchat")]) = .ok ([], []) ∧
    search_database (fun _ => recsW)
        (.obj [("intent", Json.str "get_top_rated_movies"),
               ("entities", Json.obj [])]) =
      .ok ([.topRated (.num 5)], recsW) :=
  ⟨claimC10_dispatch.1 (fun _ => recsW) [("intent", Json.str "chitchat")]
     rfl rfl rfl rfl,
   claimC10_dispatch.2 (fun _ => recsW)
     [("intent", Json.str "get_top_rated_movies"), ("entities", Json.obj [])]
     [] rfl rfl rfl⟩
